import Mathlib

/-!
Verification of the Crypto Pay webhook server (`main.py`, `config.py`) against its
natural-language specification.

The development shallowly embeds the relevant Python code:
* raw request bodies are `List Nat` (byte values),
* Python `str` is Lean `String`,
* Python `Optional[T]` is `Option T`,
* fallible stages return `Except`/`Option`,
* the two external HTTP collaborators — `json.loads` (stdlib) and the Telegram
  `requests.post` call — enter the model as explicit oracle parameters, since both are
  outside the repository's code.

All definitions are executable, so concrete runs can be settled by `decide`/`rfl`.
-/

namespace CryptoWebhook

/-! ## Python truthiness and `int()` parsing -/

/-- Truthiness of a Python `Optional[str]`: `None` and `""` are falsy. -/
def py_truthy_str : Option String → Bool
  | none => false
  | some s => !s.isEmpty

/-- Truthiness of a Python `Optional[int]`: `None` and `0` are falsy. -/
def py_truthy_int : Option Int → Bool
  | none => false
  | some n => n != 0

/-- Model of Python `str.upper()` for ASCII text (provider status values are ASCII;
uppercasing of non-ASCII letters is not modelled). -/
def py_upper (s : String) : String := String.mk (s.data.map Char.toUpper)

/-- Characters stripped by Python `int(str)` before parsing: ASCII/Latin-1 whitespace
(the model omits the rarer non-Latin-1 Unicode space characters, which cannot occur in
the claim-relevant inputs). -/
def isPyIntSpace (c : Char) : Bool :=
  c.toNat = 9 || c.toNat = 10 || c.toNat = 11 || c.toNat = 12 || c.toNat = 13 ||
  c.toNat = 28 || c.toNat = 29 || c.toNat = 30 || c.toNat = 31 || c.toNat = 32 ||
  c.toNat = 133 || c.toNat = 160

/-- Strip characters satisfying `p` from both ends of a list. -/
def stripChars (p : Char → Bool) (cs : List Char) : List Char :=
  ((cs.dropWhile p).reverse.dropWhile p).reverse

/-- Digit-sequence parser of Python `int(str)` after the first digit: digits, with a
single underscore allowed between digits (`int("4_2") = 42`). -/
def pyDigitsAux : Nat → List Char → Option Nat
  | acc, [] => some acc
  | acc, '_' :: c :: rest =>
      if c.isDigit then pyDigitsAux (acc * 10 + (c.toNat - 48)) rest else none
  | acc, c :: rest =>
      if c.isDigit then pyDigitsAux (acc * 10 + (c.toNat - 48)) rest else none

/-- Nonempty digit sequence (Python `int()` digit part, base 10). -/
def pyDigits : List Char → Option Nat
  | [] => none
  | c :: rest => if c.isDigit then pyDigitsAux (c.toNat - 48) rest else none

/-- Model of Python `int(s)` for `str` input: strip whitespace, optional sign, base-10
digits (ASCII digits; non-ASCII decimal digits are not modelled). `none` models a raised
`ValueError`. -/
def pyIntParse (s : String) : Option Int :=
  match stripChars isPyIntSpace s.data with
  | '+' :: rest => (pyDigits rest).map (fun n => (n : Int))
  | '-' :: rest => (pyDigits rest).map (fun n => -(n : Int))
  | cs => (pyDigits cs).map (fun n => (n : Int))

/-! ## Python `str.split` and substring containment -/

/-- Substring test: model of Python `sub in s` on strings. -/
def containsSub (sep : List Char) : List Char → Bool
  | [] => sep.isEmpty
  | x :: rest => sep.isPrefixOf (x :: rest) || containsSub sep rest

/-- `sep` occurs as a contiguous substring of `xs`. -/
def OccursIn (sep xs : List Char) : Prop := ∃ p t, xs = p ++ sep ++ t

/-- Fuelled model of Python `s.split(sep)` for nonempty `sep`: scan left to right,
cutting at each non-overlapping occurrence of `sep`, keeping empty pieces. The fuel is
an upper bound on the scanned length; `pySplit` below instantiates it with the input
length, which is always sufficient. -/
def splitFuel (sep : List Char) : Nat → List Char → List (List Char)
  | _, [] => [[]]
  | 0, xs => [xs]
  | fuel + 1, x :: rest =>
      if sep ≠ [] ∧ sep.isPrefixOf (x :: rest) then
        [] :: splitFuel sep fuel (List.drop sep.length (x :: rest))
      else
        match splitFuel sep fuel rest with
        | [] => [[x]]
        | y :: ys => (x :: y) :: ys

/-- Python `s.split(sep)` (nonempty `sep`), as a list of character lists. -/
def pySplit (sep : String) (s : String) : List (List Char) :=
  splitFuel sep.data s.data.length s.data

/-- The literal marker searched for in `custom_payload` (main.py line 137). -/
def userIdMarker : String := "user_id:"

/-- Extraction of the Telegram chat id from `custom_payload` (main.py lines 133-141):
```
chat_id: Optional[int] = None
if custom_payload_str:
    try:
        if "user_id:" in custom_payload_str:
            chat_id = int(custom_payload_str.split("user_id:")[-1])
    except Exception as e:
        ...
```
The `except` arm (a `ValueError` from `int`) is the `none` result of `pyIntParse`. -/
def extract_chat_id (custom_payload_str : Option String) : Option Int :=
  match custom_payload_str with
  | none => none
  | some s =>
      if s.isEmpty then none
      else if containsSub userIdMarker.data s.data then
        pyIntParse (String.mk ((pySplit userIdMarker s).getLastD []))
      else none

/-! ## UTF-8 (Python `bytes.decode("utf-8")` / `str.encode("utf-8")`) -/

/-- A UTF-8 continuation byte: `0x80 ≤ b < 0xC0`. -/
def isUtf8Cont (b : Nat) : Bool := 128 ≤ b && b < 192

/-- Strict UTF-8 decoding of a byte list, as Python's `bytes.decode("utf-8")`:
rejects invalid lead bytes, truncated sequences, overlong encodings, surrogates and
code points above `0x10FFFF`. `none` models a raised `UnicodeDecodeError`. -/
def utf8DecodeList : List Nat → Option (List Char)
  | [] => some []
  | b :: rest =>
      if b < 128 then
        (utf8DecodeList rest).map (fun cs => Char.ofNat b :: cs)
      else if b < 194 then none
      else if b < 224 then
        match rest with
        | c1 :: rest2 =>
            if isUtf8Cont c1 then
              (utf8DecodeList rest2).map
                (fun cs => Char.ofNat ((b - 192) * 64 + (c1 - 128)) :: cs)
            else none
        | _ => none
      else if b < 240 then
        match rest with
        | c1 :: c2 :: rest3 =>
            if isUtf8Cont c1 && isUtf8Cont c2 then
              let cp := (b - 224) * 4096 + (c1 - 128) * 64 + (c2 - 128)
              if 2048 ≤ cp && !(55296 ≤ cp && cp ≤ 57343) then
                (utf8DecodeList rest3).map (fun cs => Char.ofNat cp :: cs)
              else none
            else none
        | _ => none
      else if b < 245 then
        match rest with
        | c1 :: c2 :: c3 :: rest4 =>
            if isUtf8Cont c1 && isUtf8Cont c2 && isUtf8Cont c3 then
              let cp := (b - 240) * 262144 + (c1 - 128) * 4096 + (c2 - 128) * 64 + (c3 - 128)
              if 65536 ≤ cp && cp ≤ 1114111 then
                (utf8DecodeList rest4).map (fun cs => Char.ofNat cp :: cs)
              else none
            else none
        | _ => none
      else none

/-- Python `raw_body.decode()` (default UTF-8, strict). -/
def pyDecodeUtf8 (bytes : List Nat) : Option String :=
  (utf8DecodeList bytes).map String.mk

/-- UTF-8 encoding of one character. -/
def utf8EncodeChar (c : Char) : List Nat :=
  let n := c.toNat
  if n < 128 then [n]
  else if n < 2048 then [192 + n / 64, 128 + n % 64]
  else if n < 65536 then [224 + n / 4096, 128 + (n / 64) % 64, 128 + n % 64]
  else [240 + n / 262144, 128 + (n / 4096) % 64, 128 + (n / 64) % 64, 128 + n % 64]

/-- Python `s.encode("utf-8")`. -/
def utf8Encode (s : String) : List Nat :=
  (s.data.map utf8EncodeChar).flatten

/-! ## SHA-256 and HMAC (Python `hashlib.sha256`, `hmac.new(...).hexdigest()`)

32-bit machine words are `Nat` values kept below `2^32` by explicit `% 2^32` masking. -/

/-- `2^32`. -/
def M32 : Nat := 4294967296

/-- Addition modulo `2^32`. -/
def add32 (a b : Nat) : Nat := (a + b) % M32

/-- Right rotation of a 32-bit word by `n`. -/
def rotr32 (n x : Nat) : Nat := ((x >>> n) ||| (x <<< (32 - n))) % M32

/-- Bitwise complement of a 32-bit word (the argument is always below `2^32`). -/
def not32 (x : Nat) : Nat := 4294967295 - x

/-- SHA-256 round constants (FIPS 180-4, rendered in decimal). -/
def sha256K : List Nat :=
  [1116352408, 1899447441, 3049323471, 3921009573, 961987163, 1508970993,
   2453635748, 2870763221, 3624381080, 310598401, 607225278, 1426881987,
   1925078388, 2162078206, 2614888103, 3248222580, 3835390401, 4022224774,
   264347078, 604807628, 770255983, 1249150122, 1555081692, 1996064986,
   2554220882, 2821834349, 2952996808, 3210313671, 3336571891, 3584528711,
   113926993, 338241895, 666307205, 773529912, 1294757372, 1396182291,
   1695183700, 1986661051, 2177026350, 2456956037, 2730485921, 2820302411,
   3259730800, 3345764771, 3516065817, 3600352804, 4094571909, 275423344,
   430227734, 506948616, 659060556, 883997877, 958139571, 1322822218,
   1537002063, 1747873779, 1955562222, 2024104815, 2227730452, 2361852424,
   2428436474, 2756734187, 3204031479, 3329325298]

/-- SHA-256 initial hash state (FIPS 180-4, rendered in decimal). -/
def sha256H0 : List Nat :=
  [1779033703, 3144134277, 1013904242, 2773480762,
   1359893119, 2600822924, 528734635, 1541459225]

/-- SHA-256 Σ₀. -/
def bigS0 (x : Nat) : Nat := (rotr32 2 x) ^^^ (rotr32 13 x) ^^^ (rotr32 22 x)

/-- SHA-256 Σ₁. -/
def bigS1 (x : Nat) : Nat := (rotr32 6 x) ^^^ (rotr32 11 x) ^^^ (rotr32 25 x)

/-- SHA-256 σ₀. -/
def smallS0 (x : Nat) : Nat := (rotr32 7 x) ^^^ (rotr32 18 x) ^^^ (x >>> 3)

/-- SHA-256 σ₁. -/
def smallS1 (x : Nat) : Nat := (rotr32 17 x) ^^^ (rotr32 19 x) ^^^ (x >>> 10)

/-- SHA-256 `Ch`. -/
def shaCh (x y z : Nat) : Nat := (x &&& y) ^^^ ((not32 x) &&& z)

/-- SHA-256 `Maj`. -/
def shaMaj (x y z : Nat) : Nat := (x &&& y) ^^^ (x &&& z) ^^^ (y &&& z)

/-- Big-endian byte rendering of a number into `k` bytes. -/
def natToBytesBE : Nat → Nat → List Nat
  | 0, _ => []
  | k + 1, n => natToBytesBE k (n / 256) ++ [n % 256]

/-- Group bytes into big-endian 32-bit words. -/
def bytesToWordsBE : List Nat → List Nat
  | b0 :: b1 :: b2 :: b3 :: rest =>
      (((b0 * 256 + b1) * 256 + b2) * 256 + b3) :: bytesToWordsBE rest
  | _ => []

/-- Split into 64-byte blocks (fuelled; the fuel is instantiated with the length). -/
def chunks64 : Nat → List Nat → List (List Nat)
  | _, [] => []
  | 0, xs => [xs]
  | fuel + 1, xs => xs.take 64 :: chunks64 fuel (xs.drop 64)

/-- One message-schedule extension step: append `W[t]` for the next `t`. -/
def scheduleStep (w : List Nat) : List Nat :=
  let n := w.length
  w ++ [add32 (add32 (smallS1 (w.getD (n - 2) 0)) (w.getD (n - 7) 0))
              (add32 (smallS0 (w.getD (n - 15) 0)) (w.getD (n - 16) 0))]

/-- Full 64-entry message schedule from the 16 block words. -/
def schedule (w16 : List Nat) : List Nat :=
  (List.range 48).foldl (fun w _ => scheduleStep w) w16

/-- One SHA-256 compression round on the 8-word state. -/
def compressRound (st : List Nat) (kw : Nat × Nat) : List Nat :=
  match st with
  | [a, b, c, d, e, f, g, h] =>
      let t1 := add32 h (add32 (bigS1 e) (add32 (shaCh e f g) (add32 kw.1 kw.2)))
      let t2 := add32 (bigS0 a) (shaMaj a b c)
      [add32 t1 t2, a, b, c, add32 d t1, e, f, g]
  | _ => st

/-- Process one 64-byte block. -/
def compressBlock (H : List Nat) (block : List Nat) : List Nat :=
  let w := schedule (bytesToWordsBE block)
  let st := (sha256K.zip w).foldl compressRound H
  List.zipWith add32 H st

/-- SHA-256 padding: `0x80`, zeros to 56 mod 64, then the 64-bit bit length. -/
def sha256Pad (msg : List Nat) : List Nat :=
  msg ++ [128] ++ List.replicate ((119 - msg.length % 64) % 64) 0 ++ natToBytesBE 8 (8 * msg.length)

/-- SHA-256 digest of a byte list, as 32 bytes. -/
def sha256 (msg : List Nat) : List Nat :=
  let padded := sha256Pad msg
  (((chunks64 padded.length padded).foldl compressBlock sha256H0).map (natToBytesBE 4)).flatten

/-- HMAC-SHA256 (`hmac.new(key, msg, hashlib.sha256)`), digest as 32 bytes. -/
def hmacSha256 (key msg : List Nat) : List Nat :=
  let k0 := if 64 < key.length then sha256 key else key
  let k := k0 ++ List.replicate (64 - k0.length) 0
  sha256 ((k.map (fun b => b ^^^ 92)) ++ sha256 ((k.map (fun b => b ^^^ 54)) ++ msg))

/-- A lowercase hexadecimal digit. -/
def hexDigitChar (n : Nat) : Char :=
  if n < 10 then Char.ofNat (48 + n) else Char.ofNat (87 + n)

/-- `.hexdigest()`: lowercase hex rendering of a byte list. -/
def hexDigest (bytes : List Nat) : String :=
  String.mk ((bytes.map (fun b => [hexDigitChar (b / 16), hexDigitChar (b % 16)])).flatten)

/-! ## Signature verification (`verify_signature`, main.py lines 68-95) -/

/-- Model of `verify_signature(request_body, signature_header)`.

The configured shared secret `config.CRYPTO_PAY_WEBHOOK_SECRET` is passed explicitly
(environment/secrets loading is outside the modelled core; note that the repository's
`config.py` itself never assigns this attribute). The first branch is Python
`if not config.CRYPTO_PAY_WEBHOOK_SECRET or not signature_header:` — `None` and the
empty string are both falsy — and returns `True` ("fail open"). Otherwise the HMAC-SHA256
hex digest of the raw body keyed by the UTF-8 encoded secret is compared with the header;
`hmac.compare_digest` is functionally string equality (constant-time execution has no
functional content, and its `TypeError` on a non-ASCII header is caught by the `except`
arm returning `False`, which coincides with the equality being false). -/
def verify_signature (secret : Option String) (request_body : List Nat)
    (signature_header : Option String) : Bool :=
  if !py_truthy_str secret || !py_truthy_str signature_header then
    true
  else
    match secret, signature_header with
    | some sec, some sig =>
        let key := utf8Encode sec
        let calculated_signature := hexDigest (hmacSha256 key request_body)
        calculated_signature == sig
    | _, _ => true

/-! ## JSON values and the pydantic models (main.py lines 31-47)

`Json` models the Python object produced by `json.loads`: objects are dicts (keys
unique, so association-list lookup is first-match), numbers are modelled at integral
values (`Int`) — no claim involves fractional JSON numbers. -/

inductive Json where
  | null
  | bool (b : Bool)
  | num (n : Int)
  | str (s : String)
  | arr (elems : List Json)
  | obj (fields : List (String × Json))

/-- `InvoicePayload` (pydantic `BaseModel`, main.py lines 31-41). `custom_payload` is
declared with `Field(None, alias="payload")`. -/
structure InvoicePayload where
  invoice_id : Int
  status : String
  amount : Option String
  asset : Option String
  fee : Option String
  fiat_amount : Option String
  fiat_currency : Option String
  description : Option String
  custom_payload : Option String
deriving DecidableEq, Repr

/-- `CryptoPayWebhook` (pydantic `BaseModel`, main.py lines 43-47). -/
structure CryptoPayWebhook where
  update_id : Int
  update_type : String
  request_date : String
  payload : InvoicePayload
deriving DecidableEq, Repr

/-- Pydantic (v2, lax mode) coercion of a string to an integer: optional sign and
base-10 digits (no underscores). -/
def pydanticStrToInt (s : String) : Option Int :=
  match s.data with
  | '+' :: rest => (pyDigits rest).map (fun n => (n : Int))
  | '-' :: rest => (pyDigits rest).map (fun n => -(n : Int))
  | cs => (pyDigits cs).map (fun n => (n : Int))

/-- A required `int` pydantic field: accepts a JSON integer, or (lax mode) a string
spelling one; `bool`, `null` and structured values are rejected. -/
def pyIntField (key : String) (fields : List (String × Json)) : Except String Int :=
  match fields.lookup key with
  | none => Except.error (key ++ ": Field required")
  | some (Json.num n) => Except.ok n
  | some (Json.str s) =>
      match pydanticStrToInt s with
      | some n => Except.ok n
      | none => Except.error (key ++ ": Input should be a valid integer")
  | some _ => Except.error (key ++ ": Input should be a valid integer")

/-- A required `str` pydantic field. -/
def pyStrField (key : String) (fields : List (String × Json)) : Except String String :=
  match fields.lookup key with
  | none => Except.error (key ++ ": Field required")
  | some (Json.str s) => Except.ok s
  | some _ => Except.error (key ++ ": Input should be a valid string")

/-- An `Optional[str]` pydantic field with default `None`: absent and `null` give
`None`; any non-string value is rejected. -/
def pyOptStrField (key : String) (fields : List (String × Json)) :
    Except String (Option String) :=
  match fields.lookup key with
  | none => Except.ok none
  | some Json.null => Except.ok none
  | some (Json.str s) => Except.ok (some s)
  | some _ => Except.error (key ++ ": Input should be a valid string")

/-- Pydantic validation of `InvoicePayload`. Note the lookup key for `custom_payload`
is the alias `"payload"`; extra keys (including a literal `"custom_payload"` key) are
ignored, as pydantic does by default. -/
def InvoicePayload.validate (j : Json) : Except String InvoicePayload :=
  match j with
  | Json.obj fields => do
      let invoice_id ← pyIntField "invoice_id" fields
      let status ← pyStrField "status" fields
      let amount ← pyOptStrField "amount" fields
      let asset ← pyOptStrField "asset" fields
      let fee ← pyOptStrField "fee" fields
      let fiat_amount ← pyOptStrField "fiat_amount" fields
      let fiat_currency ← pyOptStrField "fiat_currency" fields
      let description ← pyOptStrField "description" fields
      let custom_payload ← pyOptStrField "payload" fields
      return ⟨invoice_id, status, amount, asset, fee, fiat_amount, fiat_currency,
              description, custom_payload⟩
  | _ => Except.error "payload: Input should be a valid dictionary"

/-- Pydantic validation of `CryptoPayWebhook(**webhook_data_dict)`: the argument must
be a dict (a non-dict raises `TypeError`, caught by the same `except Exception` arm as
a `ValidationError`). -/
def CryptoPayWebhook.validate (j : Json) : Except String CryptoPayWebhook :=
  match j with
  | Json.obj fields => do
      let update_id ← pyIntField "update_id" fields
      let update_type ← pyStrField "update_type" fields
      let request_date ← pyStrField "request_date" fields
      let payloadJson ←
        match fields.lookup "payload" with
        | none => Except.error "payload: Field required"
        | some v => Except.ok v
      let payload ← InvoicePayload.validate payloadJson
      return ⟨update_id, update_type, request_date, payload⟩
  | _ => Except.error "Input should be a valid dictionary"

/-! ## Notifier (`send_telegram_message`, main.py lines 50-66) -/

/-- Outcome of the outbound `requests.post` to the Telegram API, as an oracle: either a
final HTTP status code or a transport error (`requests.exceptions.RequestException`). -/
inductive PostOutcome where
  | networkError
  | status (code : Nat)
deriving DecidableEq, Repr

/-- Model of `send_telegram_message(chat_id, text)`: `requests.post` with a 5 second
timeout, then `response.raise_for_status()`, which raises `HTTPError` exactly for
status codes in `[400, 600)`; both exception paths are caught and return `False`,
otherwise `True`. The message content does not influence the result. -/
def send_telegram_message (outcome : PostOutcome) (chat_id : Int) (text : String) : Bool :=
  match outcome with
  | PostOutcome.networkError => false
  | PostOutcome.status code => if 400 ≤ code ∧ code < 600 then false else true

/-! ## Status-specific notification message (main.py lines 153-162) -/

/-- The notification text computed by the handler:
```
notification_text = f"Статус вашего платежа (Инвойс ID: {invoice_id}) обновлен: <b>{status.upper()}</b>."
if status == "paid":
    notification_text = f"✅ Ваш платеж (Инвойс ID: {invoice_id}) успешно получен!"
    if amount and asset:
        notification_text = f"✅ Ваш платеж на сумму {amount} {asset} (Инвойс ID: {invoice_id}) успешно получен!"
elif status == "expired":
    notification_text = f"⌛️ Срок действия вашего платежа (Инвойс ID: {invoice_id}) истек."
```
`str.upper()` is modelled by ASCII uppercasing (provider statuses are ASCII); `if
amount and asset` is Python truthiness, so a present-but-empty string suppresses the
amount fragment. The `getD ""` defaults are never reached (both options are truthy
there). -/
def notification_text (invoice_id : Int) (status : String) (amount asset : Option String) :
    String :=
  if status = "paid" then
    if py_truthy_str amount && py_truthy_str asset then
      "✅ Ваш платеж на сумму " ++ amount.getD "" ++ " " ++ asset.getD "" ++
        " (Инвойс ID: " ++ toString invoice_id ++ ") успешно получен!"
    else
      "✅ Ваш платеж (Инвойс ID: " ++ toString invoice_id ++ ") успешно получен!"
  else if status = "expired" then
    "⌛️ Срок действия вашего платежа (Инвойс ID: " ++ toString invoice_id ++ ") истек."
  else
    "Статус вашего платежа (Инвойс ID: " ++ toString invoice_id ++ ") обновлен: <b>" ++
      py_upper status ++ "</b>."

/-! ## The webhook handler (`crypto_pay_webhook_handler`, main.py lines 98-167) -/

/-- The handler's observable HTTP response. `body` is a returned dict (HTTP 200 with
the given `status`/`message` values); `httpException` is a raised
`HTTPException(status_code, detail)`; `serverError` is an exception that escapes the
handler (HTTP 500 from the framework). -/
inductive HandlerResponse where
  | body (status message : String)
  | httpException (statusCode : Nat) (detail : String)
  | serverError (exception : String)
deriving DecidableEq, Repr

/-- The handler's observable behaviour: its response plus the Telegram sends it
performed (chat id and text of each `send_telegram_message` call). -/
structure HandlerResult where
  response : HandlerResponse
  telegramCalls : List (Int × String)
deriving DecidableEq, Repr

/-- Model of `crypto_pay_webhook_handler`. Parameters:
* `json_loads` — oracle for stdlib `json.loads` on the decoded body text (`Except.error`
  is a `json.JSONDecodeError`);
* `raw_body` — the raw request bytes;
* `crypto_pay_signature` — the optional signature header;
* `post` — oracle for the outbound Telegram POST.

Control flow of the source:
1. `raw_body.decode()` in the logging call at line 105 runs before any `try`, so a
   non-UTF-8 body raises an uncaught `UnicodeDecodeError`.
2. The signature check (lines 108-111) is commented out in the source; the handler
   never calls `verify_signature` and never raises 403.
3. `json.loads` / `CryptoPayWebhook` validation with the two 400 paths.
4. chat_id extraction; `if not chat_id:` (falsy `None` or `0`) returns the soft-error
   body without notifying.
5. message build, one `send_telegram_message`, then the 200 ok body. -/
def crypto_pay_webhook_handler (json_loads : String → Except Unit Json)
    (raw_body : List Nat) (crypto_pay_signature : Option String) (post : PostOutcome) :
    HandlerResult :=
  match pyDecodeUtf8 raw_body with
  | none => ⟨HandlerResponse.serverError "UnicodeDecodeError", []⟩
  | some bodyText =>
      match json_loads bodyText with
      | Except.error _ => ⟨HandlerResponse.httpException 400 "Invalid JSON payload", []⟩
      | Except.ok j =>
          match CryptoPayWebhook.validate j with
          | Except.error e =>
              ⟨HandlerResponse.httpException 400 ("Invalid payload structure: " ++ e), []⟩
          | Except.ok webhook_data =>
              let invoice_payload := webhook_data.payload
              let chat_id := extract_chat_id invoice_payload.custom_payload
              if py_truthy_int chat_id then
                match chat_id with
                | some c =>
                    let text := notification_text invoice_payload.invoice_id
                      invoice_payload.status invoice_payload.amount invoice_payload.asset
                    let _sent := send_telegram_message post c text
                    ⟨HandlerResponse.body "ok" "Webhook processed", [(c, text)]⟩
                | none => ⟨HandlerResponse.body "error"
                    "chat_id not found in payload, notification skipped", []⟩
              else
                ⟨HandlerResponse.body "error"
                  "chat_id not found in payload, notification skipped", []⟩

/-! ## Configuration (`config.py`)

`config.py` loads only these two attributes from the environment. In particular it
defines no `CRYPTO_PAY_WEBHOOK_SECRET`, even though `verify_signature` reads that
attribute; the secret is therefore never configured in the shipped repository (and the
handler never invokes `verify_signature` anyway). -/

structure Config where
  TELEGRAM_BOT_TOKEN : Option String
  CRYPTO_PAY_API_TOKEN : Option String

/-- The names bound at module level by `config.py` (lines 9 and 12). The module binds
nothing else — in particular not `CRYPTO_PAY_WEBHOOK_SECRET`. -/
def configModuleAttrs : List String := ["TELEGRAM_BOT_TOKEN", "CRYPTO_PAY_API_TOKEN"]

/-- A Python attribute read `config.<name>` against the shipped `config.py`: each
defined attribute holds `os.getenv(<name>)` (the `env` oracle), and reading any other
name raises `AttributeError` (the `Except.error` case). -/
def configGetattr (env : String → Option String) (name : String) :
    Except String (Option String) :=
  if name ∈ configModuleAttrs then Except.ok (env name) else Except.error "AttributeError"

/-- `verify_signature` as it executes against the shipped `config.py`: the secret is
read as `config.CRYPTO_PAY_WEBHOOK_SECRET` (main.py line 75), an attribute `config.py`
never defines, and that read sits outside the `try` that only begins at line 80 — so
the `AttributeError` escapes to the caller (`Except.error`) instead of being swallowed
by the `except` arm. When the read succeeds the function proceeds as `verify_signature`
with the obtained optional secret. -/
def verify_signature_shipped (env : String → Option String) (request_body : List Nat)
    (signature_header : Option String) : Except String Bool :=
  match configGetattr env "CRYPTO_PAY_WEBHOOK_SECRET" with
  | Except.error e => Except.error e
  | Except.ok secret => Except.ok (verify_signature secret request_body signature_header)

/-- JSON encoding of an optional string field value (`null` for `None`). -/
def jsonOfOptStr : Option String → Json
  | none => Json.null
  | some s => Json.str s

/-- A concrete well-formed webhook body, parametrised by the invoice's `payload`
(custom payload) value; used to instantiate theorems at concrete inputs. -/
def sampleWebhookJson (cp : Option String) : Json :=
  Json.obj [("update_id", Json.num 1), ("update_type", Json.str "invoice_paid"),
    ("request_date", Json.str "2024-01-01T00:00:00Z"),
    ("payload", Json.obj [("invoice_id", Json.num 7), ("status", Json.str "paid"),
      ("amount", Json.str "10.5"), ("asset", Json.str "TON"),
      ("payload", jsonOfOptStr cp)])]

/-- The parsed form of `sampleWebhookJson cp`. -/
def sampleWebhook (cp : Option String) : CryptoPayWebhook :=
  ⟨1, "invoice_paid", "2024-01-01T00:00:00Z",
    ⟨7, "paid", some "10.5", some "TON", none, none, none, none, cp⟩⟩

/-- A pattern with no nontrivial border: no proper nonempty prefix of `sep` is also a
suffix of `sep`. For such patterns the left-to-right non-overlapping scan of
`str.split` cuts at every occurrence, so its last piece is the text after the last
occurrence. The marker `"user_id:"` is border-free. -/
def BorderFree (sep : List Char) : Prop :=
  ∀ k ∈ List.range sep.length, 0 < k → sep.take k ≠ sep.drop (sep.length - k)

/-! ## Lemmas about the split/extraction machinery -/

theorem isPrefixOf_spec (l₁ l₂ : List Char) : l₁.isPrefixOf l₂ = true ↔ ∃ t, l₂ = l₁ ++ t := by
  induction l₁ generalizing l₂ with
  | nil => simp [List.isPrefixOf]
  | cons a as ih =>
      cases l₂ with
      | nil => simp [List.isPrefixOf]
      | cons b bs =>
          simp only [List.isPrefixOf, Bool.and_eq_true, beq_iff_eq, ih, List.cons_append,
            List.cons.injEq]
          constructor
          · rintro ⟨rfl, t, rfl⟩; exact ⟨t, rfl, rfl⟩
          · rintro ⟨t, rfl, rfl⟩; exact ⟨rfl, t, rfl⟩

theorem containsSub_spec (sep xs : List Char) : containsSub sep xs = true ↔ OccursIn sep xs := by
  induction xs with
  | nil =>
      simp only [containsSub, List.isEmpty_iff, OccursIn]
      constructor
      · rintro rfl; exact ⟨[], [], rfl⟩
      · rintro ⟨p, t, h⟩
        rcases List.append_eq_nil.mp h.symm with ⟨h1, h2⟩
        exact (List.append_eq_nil.mp h1).2
  | cons x rest ih =>
      simp only [containsSub, Bool.or_eq_true, isPrefixOf_spec, ih, OccursIn]
      constructor
      · rintro (⟨t, ht⟩ | ⟨p, t, ht⟩)
        · exact ⟨[], t, by simpa using ht⟩
        · exact ⟨x :: p, t, by simp [ht]⟩
      · rintro ⟨p, t, ht⟩
        cases p with
        | nil => exact Or.inl ⟨t, by simpa using ht⟩
        | cons a p =>
            simp only [List.cons_append, List.cons.injEq] at ht
            exact Or.inr ⟨p, t, ht.2⟩

theorem splitFuel_ne_nil (sep : List Char) (fuel : Nat) (xs : List Char) :
    splitFuel sep fuel xs ≠ [] := by
  cases fuel with
  | zero => cases xs <;> simp [splitFuel]
  | succ fuel =>
      cases xs with
      | nil => simp [splitFuel]
      | cons x rest =>
          simp only [splitFuel]
          split
          · simp
          · split <;> simp

theorem splitFuel_no_occ (sep : List Char) (hsep : sep ≠ []) :
    ∀ (fuel : Nat) (xs : List Char), ¬ OccursIn sep xs → splitFuel sep fuel xs = [xs] := by
  intro fuel
  induction fuel with
  | zero => intro xs _; cases xs <;> simp [splitFuel]
  | succ fuel ih =>
      intro xs hocc
      cases xs with
      | nil => simp [splitFuel]
      | cons x rest =>
          have hnp : ¬ (sep ≠ [] ∧ sep.isPrefixOf (x :: rest) = true) := by
            rintro ⟨-, hpre⟩
            rcases (isPrefixOf_spec _ _).mp hpre with ⟨t, ht⟩
            exact hocc ⟨[], t, by simpa using ht⟩
          have hrest : ¬ OccursIn sep rest := by
            rintro ⟨p, t, ht⟩
            exact hocc ⟨x :: p, t, by simp [ht]⟩
          simp only [splitFuel]
          rw [if_neg (by simpa using hnp), ih rest hrest]

theorem splitFuel_two_le (sep : List Char) (hsep : sep ≠ []) :
    ∀ (fuel : Nat) (xs : List Char), xs.length ≤ fuel → OccursIn sep xs →
      2 ≤ (splitFuel sep fuel xs).length := by
  intro fuel
  induction fuel with
  | zero =>
      rintro xs hlen ⟨p, t, rfl⟩
      exfalso
      have hz : (p ++ sep ++ t).length = 0 := Nat.le_zero.mp hlen
      simp only [List.length_append] at hz
      exact hsep (List.eq_nil_of_length_eq_zero (by omega))
  | succ fuel ih =>
      rintro xs hlen ⟨p, t, rfl⟩
      cases hp : p ++ sep ++ t with
      | nil =>
          exfalso
          rcases List.append_eq_nil.mp hp with ⟨h1, -⟩
          exact hsep (List.append_eq_nil.mp h1).2
      | cons x rest =>
          simp only [splitFuel]
          split
          · have := splitFuel_ne_nil sep fuel (List.drop sep.length (x :: rest))
            cases h : splitFuel sep fuel (List.drop sep.length (x :: rest)) with
            | nil => exact absurd h this
            | cons y ys => simp
          · rename_i hng
            cases p with
            | nil =>
                exfalso
                apply hng
                refine ⟨hsep, (isPrefixOf_spec _ _).mpr ⟨t, ?_⟩⟩
                rw [← hp]; simp
            | cons a p =>
                simp only [List.cons_append, List.cons.injEq] at hp
                have hocc : OccursIn sep rest := ⟨p, t, hp.2.symm⟩
                have hlen2 : rest.length ≤ fuel := by
                  rw [← hp.2]
                  simp only [List.length_cons, List.length_append] at hlen ⊢
                  omega
                have h2 := ih rest hlen2 hocc
                cases h : splitFuel sep fuel rest with
                | nil => exact absurd h (splitFuel_ne_nil sep fuel rest)
                | cons y ys =>
                    rw [h] at h2
                    simpa using h2

theorem getLastD_irrel {α : Type} (L : List α) (h : L ≠ []) (d d' : α) :
    L.getLastD d = L.getLastD d' := by
  cases L with
  | nil => exact absurd rfl h
  | cons a l => rfl

theorem getLastD_cons_eq {α : Type} (a : α) (l : List α) (d : α) :
    (a :: l).getLastD d = l.getLastD a := by
  simp only [List.getLastD_eq_getLast?]
  cases l with
  | nil => rfl
  | cons b bs => rw [List.getLast?_cons_cons]; rfl

theorem no_self_overlap (sep p t : List Char) (hbf : BorderFree sep) (hp : p ≠ [])
    (hlt : p.length < sep.length) (h : ∃ u, p ++ sep ++ t = sep ++ u) : False := by
  rcases h with ⟨u, hu⟩
  have htake : (p ++ (sep ++ t)).take sep.length = (sep ++ u).take sep.length := by
    rw [List.append_assoc] at hu; rw [hu]
  rw [List.take_append_eq_append_take, List.take_of_length_le (Nat.le_of_lt hlt),
    List.take_left] at htake
  have hk : (sep ++ t).take (sep.length - p.length) = sep.take (sep.length - p.length) := by
    rw [List.take_append_eq_append_take, Nat.sub_eq_zero_of_le (Nat.sub_le _ _),
      List.take_zero, List.append_nil]
  rw [hk] at htake
  have hdrop : sep.drop p.length = sep.take (sep.length - p.length) := by
    conv_lhs => rw [← htake]
    rw [List.drop_left]
  have h0 : 0 < sep.length - p.length := Nat.sub_pos_of_lt hlt
  have h1 : sep.length - p.length < sep.length := by
    have : 0 < p.length := List.length_pos.mpr hp
    omega
  have h2 : sep.length - (sep.length - p.length) = p.length := by omega
  exact hbf (sep.length - p.length) (List.mem_range.mpr h1) h0 (by rw [h2, ← hdrop])

theorem splitFuel_after_last (sep : List Char) (hsep : sep ≠ []) (hbf : BorderFree sep) :
    ∀ (fuel : Nat) (p t : List Char), (p ++ sep ++ t).length ≤ fuel → ¬ OccursIn sep t →
      (splitFuel sep fuel (p ++ sep ++ t)).getLastD [] = t := by
  intro fuel
  induction fuel with
  | zero =>
      intro p t hlen ht
      exfalso
      have hz : (p ++ sep ++ t).length = 0 := Nat.le_zero.mp hlen
      simp only [List.length_append] at hz
      exact hsep (List.eq_nil_of_length_eq_zero (by omega))
  | succ fuel ih =>
      intro p t hlen ht
      have hxs_ne : p ++ sep ++ t ≠ [] := by
        intro h
        rcases List.append_eq_nil.mp h with ⟨h1, -⟩
        exact hsep (List.append_eq_nil.mp h1).2
      rcases List.exists_cons_of_ne_nil hxs_ne with ⟨x, rest, hx⟩
      rw [hx] at hlen ⊢
      simp only [splitFuel]
      split
      · rename_i hg
        rcases (isPrefixOf_spec _ _).mp hg.2 with ⟨u, hu⟩
        have hueq : p ++ (sep ++ t) = sep ++ u := by
          rw [← List.append_assoc, hx, hu]
        by_cases hpnil : p = []
        · subst hpnil
          have hdl : List.drop sep.length (x :: rest) = t := by
            rw [← hx]
            simp only [List.nil_append]
            exact List.drop_left sep t
          rw [hdl, splitFuel_no_occ sep hsep fuel t ht]
          rfl
        · by_cases hlt : p.length < sep.length
          · exact absurd ⟨u, by rw [List.append_assoc]; exact hueq⟩
              (fun hcontra => no_self_overlap sep p t hbf hpnil hlt hcontra)
          · have hle : sep.length ≤ p.length := Nat.le_of_not_lt hlt
            have hps : p.take sep.length = sep := by
              have hsplit : p.take sep.length ++ (p.drop sep.length ++ (sep ++ t))
                  = sep ++ u := by
                calc p.take sep.length ++ (p.drop sep.length ++ (sep ++ t))
                    = (p.take sep.length ++ p.drop sep.length) ++ (sep ++ t) := by
                      rw [List.append_assoc]
                  _ = p ++ (sep ++ t) := by rw [List.take_append_drop]
                  _ = sep ++ u := hueq
              exact List.append_inj_left hsplit
                (by rw [List.length_take]; omega)
            have hdeq : List.drop sep.length (x :: rest)
                = p.drop sep.length ++ sep ++ t := by
              rw [← hx]
              have : p ++ sep ++ t = sep ++ (p.drop sep.length ++ sep ++ t) := by
                calc p ++ sep ++ t
                    = (p.take sep.length ++ p.drop sep.length) ++ sep ++ t := by
                      rw [List.take_append_drop]
                  _ = sep ++ (p.drop sep.length ++ sep ++ t) := by
                      rw [hps]; simp [List.append_assoc]
              rw [this, List.drop_left]
            rw [hdeq]
            have hlen2 : (p.drop sep.length ++ sep ++ t).length ≤ fuel := by
              have e1 : (x :: rest).length = (p ++ sep ++ t).length := by rw [hx]
              simp only [List.length_cons] at hlen
              simp only [List.length_cons, List.length_append, List.length_drop] at e1 ⊢
              have hsl : 0 < sep.length := List.length_pos.mpr hsep
              omega
            rw [getLastD_cons_eq, ih (p.drop sep.length) t hlen2 ht]
      · rename_i hng
        cases hp0 : p with
        | nil =>
            exfalso
            apply hng
            refine ⟨hsep, (isPrefixOf_spec _ _).mpr ⟨t, ?_⟩⟩
            rw [← hx, hp0, List.nil_append]
        | cons a p' =>
            subst hp0
            have h5 : a :: (p' ++ sep ++ t) = x :: rest := by
              rw [← hx]; simp
            have hrest : p' ++ sep ++ t = rest := by
              injection h5
            rw [← hrest]
            have hocc : OccursIn sep (p' ++ sep ++ t) := ⟨p', t, rfl⟩
            have hlen2 : (p' ++ sep ++ t).length ≤ fuel := by
              have e1 : (x :: rest).length = rest.length + 1 := rfl
              have e2 : rest.length = (p' ++ sep ++ t).length := by rw [hrest]
              omega
            have hge2 := splitFuel_two_le sep hsep fuel (p' ++ sep ++ t) hlen2 hocc
            have hlast := ih p' t hlen2 ht
            cases hL : splitFuel sep fuel (p' ++ sep ++ t) with
            | nil => exact absurd hL (splitFuel_ne_nil sep fuel _)
            | cons y ys =>
                rw [hL] at hge2 hlast
                have hys : ys ≠ [] := by
                  cases ys with
                  | nil => simp at hge2
                  | cons z zs => simp
                have e2 : (y :: ys).getLastD [] = ys.getLastD y := getLastD_cons_eq y ys []
                have e3 : ((x :: y) :: ys).getLastD [] = ys.getLastD (x :: y) :=
                  getLastD_cons_eq (x :: y) ys []
                rw [e3, getLastD_irrel ys hys (x :: y) y, ← e2, hlast]

theorem not_occurs_of_containsSub_false (sep xs : List Char)
    (h : containsSub sep xs = false) : ¬ OccursIn sep xs := by
  intro hocc
  rw [(containsSub_spec sep xs).mpr hocc] at h
  exact Bool.noConfusion h

theorem containsSub_append_mid (a p q : List Char) : containsSub a (p ++ a ++ q) = true :=
  (containsSub_spec _ _).mpr ⟨p, q, rfl⟩

theorem userIdMarker_ne_nil : userIdMarker.data ≠ [] := by decide

theorem userIdMarker_borderFree : BorderFree userIdMarker.data := by
  unfold BorderFree
  decide

theorem isEmpty_false_of_ne {s : String} (h : s ≠ "") : s.isEmpty = false := by
  rcases Bool.eq_false_or_eq_true s.isEmpty with ht | hf
  · exact absurd ((String.isEmpty_iff s).mp ht) h
  · exact hf

theorem py_truthy_str_some {s : String} (h : s ≠ "") : py_truthy_str (some s) = true := by
  simp [py_truthy_str, isEmpty_false_of_ne h]

/-- The split-based extraction of the source equals "parse the text after the last
occurrence of the marker": whenever the payload decomposes as `p ++ "user_id:" ++ t`
with no further occurrence inside `t`, the extractor parses exactly `t`. -/
theorem extract_chat_id_after_last (cp : String) (p t : List Char)
    (hd : cp.data = p ++ userIdMarker.data ++ t) (ht : ¬ OccursIn userIdMarker.data t) :
    extract_chat_id (some cp) = pyIntParse (String.mk t) := by
  have hne : cp.data ≠ [] := by
    rw [hd]
    intro h
    rcases List.append_eq_nil.mp h with ⟨h1, -⟩
    exact userIdMarker_ne_nil (List.append_eq_nil.mp h1).2
  have hemp : cp.isEmpty = false := by
    apply isEmpty_false_of_ne
    intro hcontra
    rw [hcontra] at hne
    exact hne rfl
  have hcon : containsSub userIdMarker.data cp.data = true :=
    (containsSub_spec _ _).mpr ⟨p, t, hd⟩
  simp only [extract_chat_id, hemp, hcon, Bool.false_eq_true, if_false, if_true]
  have hsplit : (pySplit userIdMarker cp).getLastD [] = t := by
    unfold pySplit
    rw [hd]
    exact splitFuel_after_last userIdMarker.data userIdMarker_ne_nil userIdMarker_borderFree
      (p ++ userIdMarker.data ++ t).length p t (Nat.le_refl _) ht
  rw [hsplit]

theorem containsSub_append_left (a xs ys : List Char) (h : containsSub a xs = true) :
    containsSub a (xs ++ ys) = true := by
  rcases (containsSub_spec _ _).mp h with ⟨p, t, rfl⟩
  exact (containsSub_spec _ _).mpr ⟨p, t ++ ys, by simp⟩

/-! ## Claims -/

set_option maxRecDepth 10000

/-- C1 (corrected). The claim says a request failing signature verification is
rejected with 403 "Invalid signature" before any parsing. In the source the entire
verification step (main.py lines 108-111) is commented out: the handler never calls
`verify_signature`, its result does not depend on the signature header at all, and no
run ever produces a 403 response — every request proceeds to JSON parsing. -/
theorem C1_no_signature_gate :
    (∀ (json_loads : String → Except Unit Json) (raw_body : List Nat)
        (h1 h2 : Option String) (post : PostOutcome),
      crypto_pay_webhook_handler json_loads raw_body h1 post =
        crypto_pay_webhook_handler json_loads raw_body h2 post) ∧
    (∀ (json_loads : String → Except Unit Json) (raw_body : List Nat)
        (h : Option String) (post : PostOutcome) (d : String),
      (crypto_pay_webhook_handler json_loads raw_body h post).response ≠
        HandlerResponse.httpException 403 d) := by
  constructor
  · intro json_loads raw_body h1 h2 post
    rfl
  · intro json_loads raw_body h post d
    simp only [crypto_pay_webhook_handler]
    split
    · simp
    · split
      · simp
      · split
        · simp
        · split
          · split <;> simp
          · simp

/-- C1, counterexample to the claim as stated: a request carrying a signature header
that fails verification (secret `"s"`, body `\x7b\x7d`, header `"deadbeef"`, for which
`verify_signature` returns `false`) is not answered with 403; the handler parses the
body and answers 400 for the failed schema validation instead. -/
theorem C1_counterexample :
    verify_signature (some "s") [123, 125] (some "deadbeef") = false ∧
    (crypto_pay_webhook_handler (fun _ => Except.ok (Json.obj [])) [123, 125]
        (some "deadbeef") (PostOutcome.status 200)).response =
      HandlerResponse.httpException 400
        "Invalid payload structure: update_id: Field required" := by
  exact ⟨by decide, rfl⟩

/-- C2 (corrected). For bodies that decode as UTF-8, the two 400 error kinds are as
claimed and distinct: a JSON decode failure yields 400 "Invalid JSON payload", a
validation failure yields 400 "Invalid payload structure: <detail>" (an envelope
missing `invoice_id` being a concrete schema violation), and no detail string makes
the two responses coincide. The correction: this does not hold for every request
body, because a body that is not valid UTF-8 crashes before parsing (see the
counterexample). -/
theorem C2_error_kinds :
    (∀ (json_loads : String → Except Unit Json) (raw_body : List Nat)
        (sig : Option String) (post : PostOutcome) (bodyText : String),
      pyDecodeUtf8 raw_body = some bodyText →
      json_loads bodyText = Except.error () →
      (crypto_pay_webhook_handler json_loads raw_body sig post).response =
        HandlerResponse.httpException 400 "Invalid JSON payload") ∧
    (∀ (json_loads : String → Except Unit Json) (raw_body : List Nat)
        (sig : Option String) (post : PostOutcome) (bodyText : String) (j : Json)
        (d : String),
      pyDecodeUtf8 raw_body = some bodyText →
      json_loads bodyText = Except.ok j →
      CryptoPayWebhook.validate j = Except.error d →
      (crypto_pay_webhook_handler json_loads raw_body sig post).response =
        HandlerResponse.httpException 400 ("Invalid payload structure: " ++ d)) ∧
    (∀ (uid : Int) (utype rdate st : String),
      CryptoPayWebhook.validate (Json.obj [("update_id", Json.num uid),
        ("update_type", Json.str utype), ("request_date", Json.str rdate),
        ("payload", Json.obj [("status", Json.str st)])]) =
        Except.error "invoice_id: Field required") ∧
    (∀ d : String, "Invalid JSON payload" ≠ "Invalid payload structure: " ++ d) := by
  refine ⟨?_, ?_, ?_, ?_⟩
  · intro json_loads raw_body sig post bodyText h1 h2
    simp only [crypto_pay_webhook_handler, h1, h2]
  · intro json_loads raw_body sig post bodyText j d h1 h2 h3
    simp only [crypto_pay_webhook_handler, h1, h2, h3]
  · intro uid utype rdate st
    rfl
  · intro d h
    have hlen : ("Invalid JSON payload" : String).length =
        ("Invalid payload structure: " ++ d).length := by rw [h]
    rw [String.length_append] at hlen
    have h1 : ("Invalid JSON payload" : String).length = 20 := by decide
    have h2 : ("Invalid payload structure: " : String).length = 27 := by decide
    omega

/-- C2, witness: both error kinds realised on concrete runs — a decode-failure oracle
on body `\x7b\x7d` gives the malformed-JSON 400, and an empty JSON object gives the
schema-violation 400. -/
theorem C2_error_kinds_witness :
    (crypto_pay_webhook_handler (fun _ => Except.error ()) [123, 125] none
        (PostOutcome.status 200)).response =
      HandlerResponse.httpException 400 "Invalid JSON payload" ∧
    (crypto_pay_webhook_handler (fun _ => Except.ok (Json.obj [])) [123, 125] none
        (PostOutcome.status 200)).response =
      HandlerResponse.httpException 400
        ("Invalid payload structure: " ++ "update_id: Field required") := by
  constructor
  · exact C2_error_kinds.1 (fun _ => Except.error ()) [123, 125] none
      (PostOutcome.status 200) "\x7b\x7d" (by decide) rfl
  · exact C2_error_kinds.2.1 (fun _ => Except.ok (Json.obj [])) [123, 125] none
      (PostOutcome.status 200) "\x7b\x7d" (Json.obj []) "update_id: Field required"
      (by decide) rfl rfl

/-- C2, counterexample to the claim as stated: the byte `0xFF` is not valid JSON, yet
the handler does not answer 400 "Invalid JSON payload" — `raw_body.decode()` in the
logging statement at main.py line 105 runs before the `try` block, so the request dies
with an uncaught `UnicodeDecodeError` (HTTP 500). -/
theorem C2_counterexample :
    (crypto_pay_webhook_handler (fun _ => Except.error ()) [255] none
        (PostOutcome.status 200)).response = HandlerResponse.serverError "UnicodeDecodeError" ∧
    (crypto_pay_webhook_handler (fun _ => Except.error ()) [255] none
        (PostOutcome.status 200)).response ≠
      HandlerResponse.httpException 400 "Invalid JSON payload" := by
  exact ⟨rfl, by decide⟩

/-- C3 (confirmed). An authenticated, well-formed request from whose custom payload no
chat id can be extracted is acknowledged with 200 and the documented soft-error body
`status "error" / "chat_id not found in payload, notification skipped"`, and the list
of Telegram sends is empty — the Notifier is never invoked. -/
theorem C3_soft_error_no_notification (json_loads : String → Except Unit Json)
    (raw_body : List Nat) (sig : Option String) (post : PostOutcome) (bodyText : String)
    (j : Json) (w : CryptoPayWebhook)
    (h1 : pyDecodeUtf8 raw_body = some bodyText)
    (h2 : json_loads bodyText = Except.ok j)
    (h3 : CryptoPayWebhook.validate j = Except.ok w)
    (h4 : extract_chat_id w.payload.custom_payload = none) :
    crypto_pay_webhook_handler json_loads raw_body sig post =
      ⟨HandlerResponse.body "error" "chat_id not found in payload, notification skipped",
        []⟩ := by
  simp only [crypto_pay_webhook_handler, h1, h2, h3, h4, py_truthy_int]
  rfl

/-- C3, witness: a concrete valid webhook whose custom payload `"no marker"` has no
`user_id:` marker is acknowledged with the soft-error body and no Telegram call. -/
theorem C3_soft_error_no_notification_witness :
    crypto_pay_webhook_handler (fun _ => Except.ok (sampleWebhookJson (some "no marker")))
      [123, 125] none (PostOutcome.status 200) =
      ⟨HandlerResponse.body "error" "chat_id not found in payload, notification skipped",
        []⟩ :=
  C3_soft_error_no_notification _ [123, 125] none (PostOutcome.status 200) "\x7b\x7d"
    (sampleWebhookJson (some "no marker")) (sampleWebhook (some "no marker"))
    (by decide) rfl rfl (by decide)

/-- C4 (confirmed). The extractor returns 42 on `"foo:bar,user_id:42"`, is absent on a
marker-less string, on an absent and on an empty custom payload, and in general: when
the payload decomposes as `p ++ "user_id:" ++ t` with no further marker occurrence in
`t` (that is, `t` is everything after the last occurrence), the extractor returns
exactly the Python `int(...)` parse of `t` — `some` its base-10 value, or `none`
("absent, not aborting") when that parse fails. -/
theorem C4_extractor :
    extract_chat_id (some "foo:bar,user_id:42") = some 42 ∧
    extract_chat_id (some "no marker here") = none ∧
    extract_chat_id none = none ∧
    extract_chat_id (some "") = none ∧
    (∀ (cp : String) (p t : List Char), cp.data = p ++ userIdMarker.data ++ t →
      ¬ OccursIn userIdMarker.data t →
      extract_chat_id (some cp) = pyIntParse (String.mk t)) := by
  refine ⟨by decide, by decide, rfl, by decide, ?_⟩
  intro cp p t hd ht
  exact extract_chat_id_after_last cp p t hd ht

/-- C4, witness: the general after-the-last-occurrence clause at the concrete payload
`"x user_id:7"` (decomposition `"x " ++ "user_id:" ++ "7"`), where the parse succeeds
with 7. -/
theorem C4_extractor_witness :
    ("x user_id:7" : String).data = "x ".data ++ userIdMarker.data ++ "7".data ∧
    extract_chat_id (some "x user_id:7") = pyIntParse (String.mk "7".data) ∧
    pyIntParse (String.mk "7".data) = some 7 := by
  refine ⟨by decide, ?_, by decide⟩
  exact C4_extractor.2.2.2.2 "x user_id:7" "x ".data "7".data (by decide)
    (not_occurs_of_containsSub_false _ _ (by decide))

/-- C5 (corrected). The Notifier returns `false` on a transport error and on any
4xx/5xx response; the handler's result never depends on the dispatch outcome at all;
and whenever dispatch is reached the response is 200 `status "ok" / "Webhook
processed"`. The correction concerns only the claim's "non-2xx" wording:
`raise_for_status()` raises only for status codes in `[400, 600)`, so a non-2xx,
non-4xx/5xx response such as 304 makes the Notifier return `true` (see the
counterexample). -/
theorem C5_dispatch_failure_degraded :
    (∀ (chat_id : Int) (text : String),
      send_telegram_message PostOutcome.networkError chat_id text = false) ∧
    (∀ (code : Nat) (chat_id : Int) (text : String), 400 ≤ code → code < 600 →
      send_telegram_message (PostOutcome.status code) chat_id text = false) ∧
    (∀ (json_loads : String → Except Unit Json) (raw_body : List Nat)
        (sig : Option String) (post post' : PostOutcome),
      crypto_pay_webhook_handler json_loads raw_body sig post =
        crypto_pay_webhook_handler json_loads raw_body sig post') ∧
    (∀ (json_loads : String → Except Unit Json) (raw_body : List Nat)
        (sig : Option String) (post : PostOutcome) (bodyText : String) (j : Json)
        (w : CryptoPayWebhook) (c : Int),
      pyDecodeUtf8 raw_body = some bodyText →
      json_loads bodyText = Except.ok j →
      CryptoPayWebhook.validate j = Except.ok w →
      extract_chat_id w.payload.custom_payload = some c → c ≠ 0 →
      (crypto_pay_webhook_handler json_loads raw_body sig post).response =
        HandlerResponse.body "ok" "Webhook processed") := by
  refine ⟨fun _ _ => rfl, ?_, fun _ _ _ _ _ => rfl, ?_⟩
  · intro code chat_id text h1 h2
    simp only [send_telegram_message, if_pos (And.intro h1 h2)]
  · intro json_loads raw_body sig post bodyText j w c h1 h2 h3 h4 h5
    simp only [crypto_pay_webhook_handler, h1, h2, h3, h4, py_truthy_int]
    simp [h5]

/-- C5, counterexample to the claim as stated: a 304 response is not a 2xx, yet the
Notifier returns `true`, because `raise_for_status()` does not raise for it. -/
theorem C5_counterexample :
    send_telegram_message (PostOutcome.status 304) 1 "text" = true ∧
    ¬ (200 ≤ 304 ∧ 304 ≤ 299) := by decide

/-- C5, witness: a 500 response makes the Notifier return `false`, and a concrete
valid webhook processed under a failing transport still yields the 200 ok body. -/
theorem C5_dispatch_failure_degraded_witness :
    send_telegram_message (PostOutcome.status 500) 1 "hi" = false ∧
    (crypto_pay_webhook_handler
        (fun _ => Except.ok (sampleWebhookJson (some "user_id:42"))) [123, 125] none
        PostOutcome.networkError).response =
      HandlerResponse.body "ok" "Webhook processed" := by
  constructor
  · exact C5_dispatch_failure_degraded.2.1 500 1 "hi" (by decide) (by decide)
  · exact C5_dispatch_failure_degraded.2.2.2
      (fun _ => Except.ok (sampleWebhookJson (some "user_id:42"))) [123, 125] none
      PostOutcome.networkError "\x7b\x7d" (sampleWebhookJson (some "user_id:42"))
      (sampleWebhook (some "user_id:42")) 42 (by decide) rfl rfl (by decide) (by decide)

/-- C6 (confirmed). The status message: for `"paid"` with amount and asset both
present (provided and nonempty, the source's truthiness test), the message carries the
amount, the asset and the ✅ success marker; when they are not both present the
message is the fixed amount-free success text, so the amount fragment appears only
when both are present; for `"expired"` the message is the fixed ⌛️ expiry text,
independent of amount and asset (no amount fragment); for any other status it is the
generic "обновлен" text with the status rendered upper-cased. -/
theorem C6_notification_text :
    (∀ (id : Int) (a b : String), a ≠ "" → b ≠ "" →
      notification_text id "paid" (some a) (some b) =
        "✅ Ваш платеж на сумму " ++ a ++ " " ++ b ++ " (Инвойс ID: " ++ toString id ++
          ") успешно получен!" ∧
      containsSub a.data (notification_text id "paid" (some a) (some b)).data = true ∧
      containsSub b.data (notification_text id "paid" (some a) (some b)).data = true ∧
      containsSub "✅".data (notification_text id "paid" (some a) (some b)).data = true) ∧
    (∀ (id : Int) (amount asset : Option String),
      ¬ (py_truthy_str amount = true ∧ py_truthy_str asset = true) →
      notification_text id "paid" amount asset =
        "✅ Ваш платеж (Инвойс ID: " ++ toString id ++ ") успешно получен!") ∧
    (∀ (id : Int) (amount asset : Option String),
      notification_text id "expired" amount asset =
        "⌛️ Срок действия вашего платежа (Инвойс ID: " ++ toString id ++ ") истек." ∧
      containsSub "⌛️".data (notification_text id "expired" amount asset).data = true) ∧
    (∀ (id : Int) (st : String) (amount asset : Option String),
      st ≠ "paid" → st ≠ "expired" →
      notification_text id st amount asset =
        "Статус вашего платежа (Инвойс ID: " ++ toString id ++ ") обновлен: <b>" ++
          py_upper st ++ "</b>." ∧
      containsSub (py_upper st).data
        (notification_text id st amount asset).data = true) := by
  refine ⟨?_, ?_, ?_, ?_⟩
  · intro id a b ha hb
    have hmsg : notification_text id "paid" (some a) (some b) =
        "✅ Ваш платеж на сумму " ++ a ++ " " ++ b ++ " (Инвойс ID: " ++ toString id ++
          ") успешно получен!" := by
      simp [notification_text, py_truthy_str_some ha, py_truthy_str_some hb]
    have hdata : (notification_text id "paid" (some a) (some b)).data =
        "✅ Ваш платеж на сумму ".data ++ (a.data ++ (" ".data ++ (b.data ++
          (" (Инвойс ID: ".data ++ ((toString id).data ++ ") успешно получен!".data))))) := by
      rw [hmsg]; simp
    refine ⟨hmsg, ?_, ?_, ?_⟩
    · refine (containsSub_spec _ _).mpr ⟨"✅ Ваш платеж на сумму ".data,
        " ".data ++ (b.data ++ (" (Инвойс ID: ".data ++ ((toString id).data ++
          ") успешно получен!".data))), ?_⟩
      rw [hdata]; simp
    · refine (containsSub_spec _ _).mpr
        ⟨"✅ Ваш платеж на сумму ".data ++ (a.data ++ " ".data),
          " (Инвойс ID: ".data ++ ((toString id).data ++ ") успешно получен!".data), ?_⟩
      rw [hdata]; simp
    · rw [hdata]
      exact containsSub_append_left _ _ _ (by decide)
  · intro id amount asset h
    rcases Bool.eq_false_or_eq_true (py_truthy_str amount) with h1 | h1
    · rcases Bool.eq_false_or_eq_true (py_truthy_str asset) with h2 | h2
      · exact absurd ⟨h1, h2⟩ h
      · simp [notification_text, h1, h2]
    · simp [notification_text, h1]
  · intro id amount asset
    have hmsg : notification_text id "expired" amount asset =
        "⌛️ Срок действия вашего платежа (Инвойс ID: " ++ toString id ++ ") истек." := by
      simp [notification_text]
    have hdata : (notification_text id "expired" amount asset).data =
        "⌛️ Срок действия вашего платежа (Инвойс ID: ".data ++
          ((toString id).data ++ ") истек.".data) := by
      rw [hmsg]; simp
    refine ⟨hmsg, ?_⟩
    rw [hdata]
    exact containsSub_append_left _ _ _ (by decide)
  · intro id st amount asset hst1 hst2
    have hmsg : notification_text id st amount asset =
        "Статус вашего платежа (Инвойс ID: " ++ toString id ++ ") обновлен: <b>" ++
          py_upper st ++ "</b>." := by
      simp only [notification_text, if_neg hst1, if_neg hst2]
    refine ⟨hmsg, ?_⟩
    refine (containsSub_spec _ _).mpr
      ⟨"Статус вашего платежа (Инвойс ID: ".data ++ ((toString id).data ++
        ") обновлен: <b>".data), "</b>.".data, ?_⟩
    rw [hmsg]; simp

/-- C6, witness: the paid-with-amount clause at `id = 7`, amount `"10.5"`, asset
`"TON"`, and the other-status clause at status `"active"`. -/
theorem C6_notification_text_witness :
    notification_text 7 "paid" (some "10.5") (some "TON") =
      "✅ Ваш платеж на сумму 10.5 TON (Инвойс ID: 7) успешно получен!" ∧
    notification_text 7 "active" none none =
      "Статус вашего платежа (Инвойс ID: 7) обновлен: <b>ACTIVE</b>." := by
  constructor
  · have h := (C6_notification_text.1 7 "10.5" "TON" (by decide) (by decide)).1
    rw [h]
    decide
  · have h := (C6_notification_text.2.2.2 7 "active" none none (by decide) (by decide)).1
    rw [h]
    decide

/-- C7 (confirmed). When a shared secret and a signature header are both present
(provided and nonempty — the source's truthiness test), verification succeeds exactly
when the header equals the HMAC-SHA256 hex digest of the raw body keyed by the UTF-8
encoded secret: true only on exact match. The single-byte sensitivity is witnessed
concretely (and holds by the iff): for secret `"secret"`, the bodies `abc` and `abd`
differ in one byte and have different digests, so presenting the digest of `abc`
against the body `abd` fails verification. (`hmac.compare_digest` is a constant-time
string equality; timing is outside the functional model.) -/
theorem C7_verify_signature_hmac :
    (∀ (sec sig : String) (body : List Nat), sec ≠ "" → sig ≠ "" →
      (verify_signature (some sec) body (some sig) = true ↔
        hexDigest (hmacSha256 (utf8Encode sec) body) = sig)) ∧
    hexDigest (hmacSha256 (utf8Encode "secret") [97, 98, 99]) ≠
      hexDigest (hmacSha256 (utf8Encode "secret") [97, 98, 100]) ∧
    verify_signature (some "secret") [97, 98, 100]
      (some (hexDigest (hmacSha256 (utf8Encode "secret") [97, 98, 99]))) = false := by
  refine ⟨?_, by decide, by decide⟩
  intro sec sig body hsec hsig
  simp [verify_signature, py_truthy_str_some hsec, py_truthy_str_some hsig]

/-- C7, witness: the verification iff at the concrete secret `"secret"`, header equal
to the digest of the body `abc`, and that same body — where both sides of the iff
hold. -/
theorem C7_verify_signature_hmac_witness :
    verify_signature (some "secret") [97, 98, 99]
      (some (hexDigest (hmacSha256 (utf8Encode "secret") [97, 98, 99]))) = true :=
  (C7_verify_signature_hmac.1 "secret"
    (hexDigest (hmacSha256 (utf8Encode "secret") [97, 98, 99])) [97, 98, 99]
    (by decide) (by decide)).mpr rfl

/-- C8 (code_bug). The claim describes the fail-open behaviour that is evidently
intended by `verify_signature` itself: the branch at main.py lines 75-78 returns
`True` with a loud warning when the secret or the header is missing, and the second
and third conjuncts prove exactly that for the branch logic (secret rendered as an
optional value: absent secret or absent header gives `true`). But the shipped code
never reaches that branch: `config.py` defines no `CRYPTO_PAY_WEBHOOK_SECRET`, and the
attribute read at main.py line 75 happens outside the `try` beginning at line 80, so —
first conjunct, quantified over every environment, body and header — every call of
`verify_signature` in the shipped repository raises `AttributeError` and never returns
`true`. The slip is `config.py`'s missing
`CRYPTO_PAY_WEBHOOK_SECRET = os.getenv(...)` line, which main.py's own comments
("Ensure CRYPTO_PAY_WEBHOOK_SECRET is set", line 113) presuppose. -/
theorem C8_fails_open :
    (∀ (env : String → Option String) (request_body : List Nat)
        (signature_header : Option String),
      verify_signature_shipped env request_body signature_header =
        Except.error "AttributeError") ∧
    (∀ (request_body : List Nat) (signature_header : Option String),
      verify_signature none request_body signature_header = true) ∧
    (∀ (secret : Option String) (request_body : List Nat),
      verify_signature secret request_body none = true) := by
  refine ⟨?_, ?_, ?_⟩
  · intro env request_body signature_header
    rfl
  · intro request_body signature_header
    rfl
  · intro secret request_body
    simp [verify_signature, py_truthy_str]

/-- C9 (confirmed). Every JSON body of the documented shape parses into the envelope
and invoice records, and the internal `custom_payload` field is bound from the JSON
key literally named `"payload"` inside the invoice object — even in the presence of a
key literally named `"custom_payload"`, which is ignored (pydantic populates by alias
only and discards extra keys). -/
theorem C9_parse_payload_alias (uid iid : Int) (utype rdate st decoy : String)
    (amount asset fee fa fc desc cp : Option String) :
    CryptoPayWebhook.validate (Json.obj
      [("update_id", Json.num uid), ("update_type", Json.str utype),
       ("request_date", Json.str rdate),
       ("payload", Json.obj
         [("invoice_id", Json.num iid), ("status", Json.str st),
          ("amount", jsonOfOptStr amount), ("asset", jsonOfOptStr asset),
          ("fee", jsonOfOptStr fee), ("fiat_amount", jsonOfOptStr fa),
          ("fiat_currency", jsonOfOptStr fc), ("description", jsonOfOptStr desc),
          ("payload", jsonOfOptStr cp), ("custom_payload", Json.str decoy)])])
      = Except.ok ⟨uid, utype, rdate, ⟨iid, st, amount, asset, fee, fa, fc, desc, cp⟩⟩ := by
  cases amount <;> cases asset <;> cases fee <;> cases fa <;> cases fc <;> cases desc <;>
    cases cp <;> rfl

/-- C10 (confirmed). A custom payload ending in `"user_id:0"` extracts the integer 0
successfully, yet the handler behaves exactly as if no recipient had been found: the
guard is Python's `if not chat_id:`, which treats 0 like `None`, so the response is
the 200 soft-error body and the Notifier is never invoked. -/
theorem C10_zero_chat_id (json_loads : String → Except Unit Json) (raw_body : List Nat)
    (sig : Option String) (post : PostOutcome) (bodyText : String) (j : Json)
    (w : CryptoPayWebhook) (cp : String) (p : List Char)
    (h1 : pyDecodeUtf8 raw_body = some bodyText)
    (h2 : json_loads bodyText = Except.ok j)
    (h3 : CryptoPayWebhook.validate j = Except.ok w)
    (h4 : w.payload.custom_payload = some cp)
    (h5 : cp.data = p ++ ("user_id:0" : String).data) :
    extract_chat_id (some cp) = some 0 ∧
    crypto_pay_webhook_handler json_loads raw_body sig post =
      ⟨HandlerResponse.body "error" "chat_id not found in payload, notification skipped",
        []⟩ := by
  have hext : extract_chat_id (some cp) = some 0 := by
    have hd : cp.data = p ++ userIdMarker.data ++ ['0'] := by
      rw [h5]
      have he : ("user_id:0" : String).data = userIdMarker.data ++ ['0'] := by decide
      rw [he, List.append_assoc]
    have hx := extract_chat_id_after_last cp p ['0'] hd
      (not_occurs_of_containsSub_false _ _ (by decide))
    rw [hx]
    decide
  refine ⟨hext, ?_⟩
  simp only [crypto_pay_webhook_handler, h1, h2, h3, h4, hext, py_truthy_int]
  rfl

/-- C10, witness: a concrete valid webhook with custom payload `"user_id:0"` — the
extraction yields 0 and the handler answers with the soft-error body and performs no
Telegram call. -/
theorem C10_zero_chat_id_witness :
    extract_chat_id (some "user_id:0") = some 0 ∧
    crypto_pay_webhook_handler
      (fun _ => Except.ok (sampleWebhookJson (some "user_id:0"))) [123, 125] none
      (PostOutcome.status 200) =
      ⟨HandlerResponse.body "error" "chat_id not found in payload, notification skipped",
        []⟩ :=
  C10_zero_chat_id (fun _ => Except.ok (sampleWebhookJson (some "user_id:0"))) [123, 125]
    none (PostOutcome.status 200) "\x7b\x7d" (sampleWebhookJson (some "user_id:0"))
    (sampleWebhook (some "user_id:0")) "user_id:0" [] (by decide) rfl rfl rfl (by decide)

end CryptoWebhook
